import Mathlib

/- Shallow embedding of the Gesture-Fireworks simulation core:
   src/components/FireworkScene.tsx (per-frame loop, particle pool, entity
   lifecycle managers, scoring economy), src/App.tsx (session state machine),
   and the shared type declarations (Gesture enum, HandData). -/

/-- Gesture labels, from the `Gesture` enum of the types module
(src/unnamed/part_001). -/
inductive Gesture where
  | None
  | Closed_Fist
  | Open_Palm
  | Victory
  | Pointing_Up
  | Thumb_Up
  | Thumb_Down
  | Shaka
deriving DecidableEq, Repr

/-- Hand-tracking snapshot consumed each tick (interface `HandData` of the
types module): a discrete gesture label, a scalar motion speed and a wrist
position.  JS numbers are embedded as rationals. -/
structure HandData where
  gesture : Gesture
  velocity : ℚ
  posX : ℚ
  posY : ℚ
  posZ : ℚ
deriving DecidableEq, Repr

/-- State of the gesture stabilizer: the refs `pendingGesture`,
`gestureFrameCount` and `stableGesture` of FireworkScene.tsx. -/
structure GestureState where
  pending : Gesture
  count : ℕ
  stable : Gesture
deriving DecidableEq, Repr

/-- Raw per-tick gesture: `hand ? hand.gesture : Gesture.None`
(FireworkScene.tsx line 346). -/
def rawGesture (hand : Option HandData) : Gesture :=
  match hand with
  | some h => h.gesture
  | none => Gesture.None

/-- One tick of the gesture debounce block (FireworkScene.tsx lines 347-357
together with the unconditional write-back `stableGesture.current :=
activeGesture` of lines 395 and 398): if the raw gesture equals the pending
one the frame count is incremented, otherwise pending is reset to the raw
gesture and the count to 0; the stable gesture is reassigned to pending
exactly when the count exceeds 5. -/
def debounceStep (raw : Gesture) (g : GestureState) : GestureState :=
  let pending := if raw = g.pending then g.pending else raw
  let count := if raw = g.pending then g.count + 1 else 0
  let stable := if count > 5 then pending else g.stable
  ⟨pending, count, stable⟩

/-- Feeding the debouncer an alternating raw signal a, b, a, b, ... for n
ticks (a first). -/
def altFeed (a b : Gesture) : ℕ → GestureState → GestureState
  | 0, g => g
  | n + 1, g => altFeed b a n (debounceStep a g)

/-- Score counters (interface `GameStats` of FireworkScene.tsx); all three
are integer-valued operationally. -/
structure GameStats where
  exploded : ℤ
  consumed : ℤ
  coins : ℤ
deriving DecidableEq, Repr

/-- Spendable charges derived from the counters:
`Math.floor((exploded - consumed) / 5)` (FireworkScene.tsx line 663 and
App.tsx line 143).  JS floor of the real quotient is floor division. -/
def chargesOf (st : GameStats) : ℤ :=
  (st.exploded - st.consumed).fdiv 5

/-- Rising firework shell (the `projectiles` ref entries: random id tag,
position, velocity, color). -/
structure Projectile where
  id : ℚ
  x : ℚ
  y : ℚ
  z : ℚ
  velX : ℚ
  velY : ℚ
  velZ : ℚ
  color : ℕ
deriving DecidableEq, Repr

/-- Reward envelope (the `envelopes` ref entries: random id, mesh position,
golden flag). -/
structure Envelope where
  id : ℚ
  x : ℚ
  y : ℚ
  z : ℚ
  isGolden : Bool
deriving DecidableEq, Repr

/-- The random draws used to build one coin (position jitter, initial
rotation, velocity, angular speed), each drawn from [0,1). -/
structure CoinRand where
  jx : ℚ
  jy : ℚ
  rx : ℚ
  ry : ℚ
  rz : ℚ
  vx : ℚ
  vy : ℚ
  vz : ℚ
  sx : ℚ
  sy : ℚ

/-- Falling coin (the `coins` ref entries).  The initial rotation is the
random draw times pi, hence real-valued. -/
structure Coin where
  x : ℚ
  y : ℚ
  z : ℚ
  rotX : ℝ
  rotY : ℝ
  rotZ : ℝ
  velX : ℚ
  velY : ℚ
  velZ : ℚ
  rotSpeedX : ℚ
  rotSpeedY : ℚ

/-- The random draws used by `spawnEnvelopes3D`: batch-count draw, golden
chance draw, golden index draw, and per-envelope id draws. -/
structure EnvRands where
  rc : ℚ
  rg1 : ℚ
  rg2 : ℚ
  idr : ℕ → ℚ

/-- The simulation-core state owned by FireworkScene.tsx that the entity
lifecycle managers and the scoring economy mutate: the `gameState` stats
ref, the `statsDirty` flag, and the projectile / envelope / coin lists.
(The particle pool is embedded separately below; actions that additionally
emit pool particles have their bursts modeled by the burst definitions.) -/
structure Scene where
  stats : GameStats
  statsDirty : Bool
  projectiles : List Projectile
  envelopes : List Envelope
  coins : List Coin

/-- Stats effect of `createExplosion` (FireworkScene.tsx lines 622-626):
increment `exploded` by one. -/
def createExplosionStats (st : GameStats) : GameStats :=
  { st with exploded := st.exploded + 1 }

/-- Scene-level effect of `createExplosion` (lines 622-660): bump the
exploded counter and mark stats dirty; the 60-particle spherical burst it
also emits into the pool is modeled by `createExplosionBurst` below. -/
def createExplosionScene (s : Scene) : Scene :=
  { s with stats := createExplosionStats s.stats, statsDirty := true }

/-- Batch size of one coin spawn (FireworkScene.tsx lines 773-774):
`Math.floor(Math.random() * 8) + 3`, doubled when the source envelope is
golden. -/
def coinCount (r : ℚ) (isGolden : Bool) : ℤ :=
  let c := ⌊r * 8⌋ + 3
  if isGolden then c * 2 else c

/-- Per-coin value (line 776): 2 for golden-derived coins, 1 otherwise. -/
def coinValue (isGolden : Bool) : ℤ :=
  if isGolden then 2 else 1

/-- Build one coin (lines 793-815): position jitter of (rand-0.5)*2 on x
and y, random initial rotation rand*pi per axis, velocity
((rand-0.5)*0.4, rand*0.4, (rand-0.5)*0.4) and angular speed
(rand-0.5)*0.2 per axis. -/
noncomputable def mkCoin (pos : ℚ × ℚ × ℚ) (cr : CoinRand) : Coin :=
  { x := pos.1 + (cr.jx - 0.5) * 2
    y := pos.2.1 + (cr.jy - 0.5) * 2
    z := pos.2.2
    rotX := (cr.rx : ℝ) * Real.pi
    rotY := (cr.ry : ℝ) * Real.pi
    rotZ := (cr.rz : ℝ) * Real.pi
    velX := (cr.vx - 0.5) * 0.4
    velY := cr.vy * 0.4
    velZ := (cr.vz - 0.5) * 0.4
    rotSpeedX := (cr.sx - 0.5) * 0.2
    rotSpeedY := (cr.sy - 0.5) * 0.2 }

/-- `spawnCoins(position, isGolden)` (FireworkScene.tsx lines 769-817):
adds `count * coinValue` to the coins stat, marks stats dirty, and appends
the coin batch; `r` is the batch-count random and `crs i` the draws of the
i-th coin.  The coin audio cue is the external audio collaborator. -/
noncomputable def spawnCoins (r : ℚ) (crs : ℕ → CoinRand) (pos : ℚ × ℚ × ℚ)
    (isGolden : Bool) (s : Scene) : Scene :=
  { s with
    stats := { s.stats with coins := s.stats.coins + coinCount r isGolden * coinValue isGolden }
    statsDirty := true
    coins := s.coins ++ (List.range (coinCount r isGolden).toNat).map (fun i => mkCoin pos (crs i)) }

/-- `spawnEnvelopes3D` (FireworkScene.tsx lines 670-756): a no-op while any
envelope is alive; otherwise spawns a batch of `Math.floor(rand*4)+1`
envelopes spaced 3.5 apart around x = 0 at height 10, depth 12, with one
member golden when the 30%-chance draw hits.  The per-envelope celebration
particle bursts go to the pool and are outside the Scene state. -/
def spawnEnvelopes3D (er : EnvRands) (s : Scene) : Scene :=
  if s.envelopes.isEmpty then
    let count : ℤ := ⌊er.rc * 4⌋ + 1
    let spacing : ℚ := 3.5
    let startX : ℚ := -(((count : ℚ) - 1) * spacing) / 2
    let goldenIndex : ℤ := if er.rg1 < 0.3 then ⌊er.rg2 * (count : ℚ)⌋ else -1
    let batch := (List.range count.toNat).map (fun i =>
      ({ id := er.idr i, x := startX + (i : ℚ) * spacing, y := 10, z := 12,
         isGolden := decide ((i : ℤ) = goldenIndex) } : Envelope))
    { s with envelopes := s.envelopes ++ batch }
  else s

/-- `trySpawnEnvelopes` (FireworkScene.tsx lines 662-668): computes the
available charges; below 1 it is a no-op; otherwise it debits 5 from the
budget (`consumed += 5`), marks stats dirty, and calls `spawnEnvelopes3D`. -/
def trySpawnEnvelopes (er : EnvRands) (s : Scene) : Scene :=
  let available := (s.stats.exploded - s.stats.consumed).fdiv 5
  if available < 1 then s
  else
    spawnEnvelopes3D er
      { s with stats := { s.stats with consumed := s.stats.consumed + 5 }, statsDirty := true }

/-- States reachable from the session-start reset (all counters zero, any
entity lists) by detonations and envelope-spawn attempts. -/
inductive Reachable : Scene → Prop where
  | init : ∀ (d : Bool) (proj : List Projectile) (env : List Envelope) (cns : List Coin),
      Reachable ⟨⟨0, 0, 0⟩, d, proj, env, cns⟩
  | explode : ∀ s, Reachable s → Reachable (createExplosionScene s)
  | trySpawn : ∀ s er, Reachable s → Reachable (trySpawnEnvelopes er s)

/-- Visibility test in normalized device coordinates (FireworkScene.tsx
line 614): |x| and |y| within a 1.05 tolerance of the clip volume and z
within [-1, 1]. -/
def isVisibleNDC (ndc : ℚ × ℚ × ℚ) : Bool :=
  decide (|ndc.1| ≤ 1.05) && decide (|ndc.2.1| ≤ 1.05) &&
    decide (-1 ≤ ndc.2.2) && decide (ndc.2.2 ≤ 1)

/-- `explodeVisibleProjectiles` (FireworkScene.tsx lines 601-620): every
projectile whose camera-projected NDC position passes `isVisibleNDC` is
detonated (`createExplosion`) and removed; `project` is the external
camera collaborator's projection map. -/
def explodeVisibleProjectiles (project : ℚ × ℚ × ℚ → ℚ × ℚ × ℚ) (s : Scene) : Scene :=
  let vis := s.projectiles.filter (fun p => isVisibleNDC (project (p.x, p.y, p.z)))
  let s' := vis.foldl (fun acc _ => createExplosionScene acc) s
  { s' with projectiles := s.projectiles.filter (fun p => !(isVisibleNDC (project (p.x, p.y, p.z)))) }

/-- `explodeEnvelopes` (FireworkScene.tsx lines 758-767): converts every
live envelope into a coin batch at its position and clears the envelope
list; a no-op when no envelope is alive.  `r i` and `crs i` are the random
draws of the i-th envelope's coin batch. -/
noncomputable def explodeEnvelopes (r : ℕ → ℚ) (crs : ℕ → ℕ → CoinRand) (s : Scene) : Scene :=
  if s.envelopes.isEmpty then s
  else
    let s' := s.envelopes.enum.foldl
      (fun acc ie => spawnCoins (r ie.1) (crs ie.1) (ie.2.x, ie.2.y, ie.2.z) ie.2.isGolden acc) s
    { s' with envelopes := [] }

/-- Edge-triggered gesture dispatch of the per-frame loop (FireworkScene.tsx
lines 380-399): when the session is active and the debounced gesture takes
a new value, an Any->Open_Palm edge detonates visible projectiles, an
Any->Victory edge attempts an envelope spawn, and a Victory->Open_Palm edge
converts envelopes to coins, in that source order; the stable gesture is
then updated.  When the session is inactive only the stable gesture is
updated (no dispatch). -/
noncomputable def triggerStep (active : Bool) (project : ℚ × ℚ × ℚ → ℚ × ℚ × ℚ)
    (er : EnvRands) (r : ℕ → ℚ) (crs : ℕ → ℕ → CoinRand)
    (stable curr : Gesture) (s : Scene) : Scene × Gesture :=
  if active then
    if curr ≠ stable then
      let s1 := if curr = Gesture.Open_Palm ∧ stable ≠ Gesture.Open_Palm
        then explodeVisibleProjectiles project s else s
      let s2 := if curr = Gesture.Victory ∧ stable ≠ Gesture.Victory
        then trySpawnEnvelopes er s1 else s1
      let s3 := if stable = Gesture.Victory ∧ curr = Gesture.Open_Palm
        then explodeEnvelopes r crs s2 else s2
      (s3, curr)
    else (s, stable)
  else (s, curr)

/-- Number of particles emitted by one explosion (FireworkScene.tsx line
627, `const count = 60`). -/
def explosionParticleCount : ℕ := 60

/-- The random draws used for one burst particle of `createExplosion`
(hue shift, the two sphere-direction uniforms u and v, the speed draw, the
size, life and decay draws), each drawn from [0,1). -/
structure BurstRand where
  hue : ℝ
  u : ℝ
  v : ℝ
  sp : ℝ
  size : ℝ
  life : ℝ
  decay : ℝ

/-- Azimuthal angle of the spherical burst sample (FireworkScene.tsx line
640): theta = 2 * pi * u. -/
noncomputable def burstTheta (u : ℝ) : ℝ :=
  2 * Real.pi * u

/-- Polar angle of the spherical burst sample (line 641):
phi = acos(2 * v - 1). -/
noncomputable def burstPhi (v : ℝ) : ℝ :=
  Real.arccos (2 * v - 1)

/-- Burst particle speed (line 642): 0.2 + rand * 0.3. -/
noncomputable def burstSpeed (sp : ℝ) : ℝ :=
  0.2 + sp * 0.3

/-- A `spawnParticle` request as issued by `createExplosion` (position,
HSL color, velocity, life, decay, size). -/
structure ParticleRequest where
  posX : ℝ
  posY : ℝ
  posZ : ℝ
  colorH : ℝ
  colorS : ℝ
  colorL : ℝ
  velX : ℝ
  velY : ℝ
  velZ : ℝ
  life : ℝ
  decay : ℝ
  size : ℝ

/-- One burst particle request of `createExplosion` (FireworkScene.tsx
lines 632-658): color HSL(h + (rand-0.5)*0.15, s, 0.6), velocity the
spherical sample (speed*sin(phi)*cos(theta), speed*sin(phi)*sin(theta),
speed*cos(phi)), life 1.0 + rand*0.5, decay 0.01 + rand*0.01 and size
(0.8 + rand*0.8)*3.0. -/
noncomputable def burstRequest (pos : ℝ × ℝ × ℝ) (h s : ℝ) (r : BurstRand) : ParticleRequest :=
  { posX := pos.1
    posY := pos.2.1
    posZ := pos.2.2
    colorH := h + (r.hue - 0.5) * 0.15
    colorS := s
    colorL := 0.6
    velX := burstSpeed r.sp * Real.sin (burstPhi r.v) * Real.cos (burstTheta r.u)
    velY := burstSpeed r.sp * Real.sin (burstPhi r.v) * Real.sin (burstTheta r.u)
    velZ := burstSpeed r.sp * Real.cos (burstPhi r.v)
    life := 1.0 + r.life * 0.5
    decay := 0.01 + r.decay * 0.01
    size := (0.8 + r.size * 0.8) * 3.0 }

/-- The full particle-request batch of one `createExplosion` call (the
`for` loop of lines 632-659), with `rands i` the draws of the i-th
particle; the stats effect is `createExplosionStats`. -/
noncomputable def createExplosionBurst (pos : ℝ × ℝ × ℝ) (h s : ℝ)
    (rands : Fin explosionParticleCount → BurstRand) : List ParticleRequest :=
  (List.finRange explosionParticleCount).map (fun i => burstRequest pos h s (rands i))

/-- Base delay draw of the spawn scheduler (FireworkScene.tsx line 364):
`Math.random() * (2000 - 666) + 666` milliseconds. -/
def baseDelay (r : ℚ) : ℚ :=
  r * (2000 - 666) + 666

/-- Final spawn delay of the scheduler (FireworkScene.tsx lines 359-378):
the base delay, shortened only when the current raw hand snapshot exists
and its gesture field is Closed_Fist, by the factor 1 - 0.5 * t with
t = min(max(velocity, 0) / 4.0, 1.0). -/
def spawnDelay (hand : Option HandData) (r : ℚ) : ℚ :=
  match hand with
  | some h =>
      if h.gesture = Gesture.Closed_Fist then
        baseDelay r * (1 - 0.5 * min (max h.velocity 0 / 4) 1)
      else baseDelay r
  | none => baseDelay r

/-- Modelled from the spec (claim C5's wording), for comparison with
`spawnDelay`: the interpolation gate keyed on the debounced STABLE gesture
being Closed_Fist, with t = clamp(speed / 4.0, 0, 1) taken from the hand
snapshot's scalar speed. -/
def spawnDelayClaimed (stable : Gesture) (speed : ℚ) (r : ℚ) : ℚ :=
  if stable = Gesture.Closed_Fist then
    baseDelay r * (1 - 0.5 * min (max (speed / 4) 0) 1)
  else baseDelay r

/-- Fixed particle pool capacity (FireworkScene.tsx line 19,
`const MAX_PARTICLES = 4000`). -/
def MAX_PARTICLES : ℕ := 4000

/-- One pooled particle slot's bookkeeping data (the `particlesData`
entries: active flag, life, velocity, decay, initial size). -/
structure Slot where
  active : Bool
  life : ℚ
  velX : ℚ
  velY : ℚ
  velZ : ℚ
  decay : ℚ
  initialSize : ℚ

/-- The particle pool: slot data plus the rendered position, color and
size attribute buffers (`particlePositions`, `particleColors`,
`particleSizes`). -/
structure ParticlePool where
  data : Fin MAX_PARTICLES → Slot
  posX : Fin MAX_PARTICLES → ℚ
  posY : Fin MAX_PARTICLES → ℚ
  posZ : Fin MAX_PARTICLES → ℚ
  colR : Fin MAX_PARTICLES → ℚ
  colG : Fin MAX_PARTICLES → ℚ
  colB : Fin MAX_PARTICLES → ℚ
  sizes : Fin MAX_PARTICLES → ℚ

/-- The slot index probed at step i of `spawnParticle`'s wrapping linear
scan from a pseudo-random start: `(start + i) % MAX_PARTICLES`
(FireworkScene.tsx line 530). -/
def scanIdx (start i : ℕ) : Fin MAX_PARTICLES :=
  ⟨(start + i) % MAX_PARTICLES, Nat.mod_lt _ (by norm_num [MAX_PARTICLES])⟩

/-- The bounded wrapping scan for the first inactive slot
(FireworkScene.tsx lines 526-535). -/
def findInactive (data : Fin MAX_PARTICLES → Slot) (start : ℕ) : Option (Fin MAX_PARTICLES) :=
  ((List.range MAX_PARTICLES).map (scanIdx start)).find? (fun idx => !(data idx).active)

/-- `spawnParticle` (FireworkScene.tsx lines 524-563): probes for an
inactive slot starting at a pseudo-random index; on success writes the
position and color buffers, activates the slot with the requested life,
velocity, decay and initial size, and sets the size buffer; when every
slot is active the request is silently dropped and the pool is untouched.
The hex-to-rgb conversion done by THREE.Color belongs to the rendering
collaborator, so the color arrives here as an rgb triple. -/
def spawnParticle (start : ℕ) (pos : ℚ × ℚ × ℚ) (col : ℚ × ℚ × ℚ)
    (vel : ℚ × ℚ × ℚ) (life decay size : ℚ) (P : ParticlePool) : ParticlePool :=
  match findInactive P.data start with
  | none => P
  | some idx =>
      { data := Function.update P.data idx ⟨true, life, vel.1, vel.2.1, vel.2.2, decay, size⟩
        posX := Function.update P.posX idx pos.1
        posY := Function.update P.posY idx pos.2.1
        posZ := Function.update P.posZ idx pos.2.2
        colR := Function.update P.colR idx col.1
        colG := Function.update P.colG idx col.2.1
        colB := Function.update P.colB idx col.2.2
        sizes := Function.update P.sizes idx size }

/-- Number of active slots of a pool. -/
def activeCount (P : ParticlePool) : ℕ :=
  (Finset.univ.filter (fun i => (P.data i).active = true)).card

/-- Session states of App.tsx
(`type GameState = 'MENU' | 'PLAYING' | 'RESULT'`). -/
inductive SessionState where
  | MENU
  | PLAYING
  | RESULT
deriving DecidableEq, Repr

/-- App-level state (App.tsx lines 15-20): session state, countdown
seconds, replay-cooldown seconds and the stats snapshot. -/
structure AppState where
  gameState : SessionState
  timeLeft : ℕ
  restartCooldown : ℕ
  stats : GameStats
deriving DecidableEq, Repr

/-- `startGame` (App.tsx lines 124-128): reset the stats snapshot, set the
countdown to 30 seconds and enter PLAYING. -/
def startGame (s : AppState) : AppState :=
  { s with stats := ⟨0, 0, 0⟩, timeLeft := 30, gameState := SessionState.PLAYING }

/-- The Victory gesture control for Menu/Result (App.tsx lines 110-122):
with a present hand showing Victory, start the game from MENU, or restart
from RESULT only once the replay cooldown has reached zero; in every other
case do nothing. -/
def gestureControl (hand : Option HandData) (s : AppState) : AppState :=
  match hand with
  | none => s
  | some h =>
      if h.gesture = Gesture.Victory then
        match s.gameState with
        | SessionState.MENU => startGame s
        | SessionState.RESULT => if s.restartCooldown = 0 then startGame s else s
        | SessionState.PLAYING => s
      else s

/-- The combined core state for the session-start frame effect: the scene
entity state plus the particle pool. -/
structure CoreState where
  scene : Scene
  pool : ParticlePool

/-- The `isGameActive` sync effect of FireworkScene.tsx (lines 514-520):
when the game becomes active only the local stats ref is reset; the entity
lists and the particle pool are untouched. -/
def syncGameActive (isActive : Bool) (st : CoreState) : CoreState :=
  if isActive then { st with scene := { st.scene with stats := ⟨0, 0, 0⟩ } } else st

/-- `spawnEnvelopes3D` never changes the stats counters. -/
theorem spawnEnvelopes3D_stats (er : EnvRands) (s : Scene) :
    (spawnEnvelopes3D er s).stats = s.stats := by
  unfold spawnEnvelopes3D
  split <;> rfl

/-- C2: every state reachable from the session-start reset by detonations
and envelope-spawn attempts satisfies consumed <= exploded, hence the
derived charge count floor((exploded - consumed)/5) is nonnegative. -/
theorem charges_nonneg_reachable (s : Scene) (h : Reachable s) :
    s.stats.consumed ≤ s.stats.exploded ∧ 0 ≤ chargesOf s.stats := by
  have key : s.stats.consumed ≤ s.stats.exploded := by
    induction h with
    | init d proj env cns => simp
    | explode t ht ih =>
        simp only [createExplosionScene, createExplosionStats]
        omega
    | trySpawn t er ht ih =>
        by_cases hav : (t.stats.exploded - t.stats.consumed).fdiv 5 < 1
        · simpa [trySpawnEnvelopes, hav] using ih
        · have hed := Int.fdiv_eq_ediv (t.stats.exploded - t.stats.consumed)
            (by norm_num : (0 : ℤ) ≤ 5)
          have h5 : 5 ≤ t.stats.exploded - t.stats.consumed := by omega
          simp only [trySpawnEnvelopes, if_neg hav, spawnEnvelopes3D_stats]
          omega
  refine ⟨key, ?_⟩
  unfold chargesOf
  have := Int.fdiv_eq_ediv (s.stats.exploded - s.stats.consumed) (by norm_num : (0 : ℤ) ≤ 5)
  omega

/-- C2 witness: the reset state itself is reachable and satisfies the
invariant. -/
theorem charges_nonneg_reachable_wit :
    Reachable (⟨⟨0, 0, 0⟩, false, [], [], []⟩ : Scene) ∧
    ((⟨⟨0, 0, 0⟩, false, [], [], []⟩ : Scene).stats.consumed ≤
        (⟨⟨0, 0, 0⟩, false, [], [], []⟩ : Scene).stats.exploded ∧
      0 ≤ chargesOf (⟨⟨0, 0, 0⟩, false, [], [], []⟩ : Scene).stats) :=
  ⟨Reachable.init false [] [] [],
    charges_nonneg_reachable _ (Reachable.init false [] [] [])⟩

/-- C3 counterexample: with one envelope alive and one available charge
(exploded = 5, consumed = 0), `trySpawnEnvelopes` is not a no-op: it
leaves the envelope collection unchanged but raises `consumed` from 0 to
5, contradicting the claim that the stats counters are unchanged. -/
theorem tryspawn_alive_not_noop_cex :
    ((⟨⟨5, 0, 0⟩, false, [], [⟨0, 0, 10, 12, false⟩], []⟩ : Scene).envelopes ≠ []) ∧
    (trySpawnEnvelopes ⟨0, 0, 0, fun _ => 0⟩
        (⟨⟨5, 0, 0⟩, false, [], [⟨0, 0, 10, 12, false⟩], []⟩ : Scene)).stats.consumed = 5 ∧
    (⟨⟨5, 0, 0⟩, false, [], [⟨0, 0, 10, 12, false⟩], []⟩ : Scene).stats.consumed = 0 := by
  refine ⟨by decide, by decide, rfl⟩

/-- C3 amended: while at least one envelope is alive, `trySpawnEnvelopes`
leaves the envelope, projectile and coin collections unchanged; the stats
are unchanged when fewer than one charge is available, but with at least
one charge it still debits `consumed` by 5 (spawning no batch). -/
theorem tryspawn_alive_amended (er : EnvRands) (s : Scene) (halive : s.envelopes ≠ []) :
    (trySpawnEnvelopes er s).envelopes = s.envelopes ∧
    (trySpawnEnvelopes er s).projectiles = s.projectiles ∧
    (trySpawnEnvelopes er s).coins = s.coins ∧
    (chargesOf s.stats < 1 → trySpawnEnvelopes er s = s) ∧
    (1 ≤ chargesOf s.stats →
      (trySpawnEnvelopes er s).stats.consumed = s.stats.consumed + 5 ∧
      (trySpawnEnvelopes er s).stats.exploded = s.stats.exploded ∧
      (trySpawnEnvelopes er s).stats.coins = s.stats.coins) := by
  have hno : ∀ t : Scene, t.envelopes ≠ [] → spawnEnvelopes3D er t = t := by
    intro t ht
    unfold spawnEnvelopes3D
    rw [if_neg]
    simpa [List.isEmpty_iff] using ht
  by_cases hav : (s.stats.exploded - s.stats.consumed).fdiv 5 < 1
  · have heq : trySpawnEnvelopes er s = s := by simp [trySpawnEnvelopes, hav]
    refine ⟨by rw [heq], by rw [heq], by rw [heq], fun _ => heq, fun hch => ?_⟩
    exact absurd hch (by unfold chargesOf; omega)
  · have heq : trySpawnEnvelopes er s =
        { s with stats := { s.stats with consumed := s.stats.consumed + 5 },
                 statsDirty := true } := by
      simp only [trySpawnEnvelopes, if_neg hav]
      exact hno _ halive
    refine ⟨by rw [heq], by rw [heq], by rw [heq], fun hch => ?_, fun _ => by rw [heq]; exact ⟨rfl, rfl, rfl⟩⟩
    exact absurd hch (by unfold chargesOf at *; omega)

/-- C3 amended witness: one alive envelope, exploded = 5, consumed = 0. -/
theorem tryspawn_alive_amended_wit :
    ((⟨⟨5, 0, 0⟩, true, [], [⟨1, 0, 10, 12, true⟩], []⟩ : Scene).envelopes ≠ []) ∧
    (1 ≤ chargesOf (⟨⟨5, 0, 0⟩, true, [], [⟨1, 0, 10, 12, true⟩], []⟩ : Scene).stats →
      (trySpawnEnvelopes ⟨0, 0, 0, fun _ => 0⟩
          (⟨⟨5, 0, 0⟩, true, [], [⟨1, 0, 10, 12, true⟩], []⟩ : Scene)).stats.consumed =
        (⟨⟨5, 0, 0⟩, true, [], [⟨1, 0, 10, 12, true⟩], []⟩ : Scene).stats.consumed + 5 ∧
      (trySpawnEnvelopes ⟨0, 0, 0, fun _ => 0⟩
          (⟨⟨5, 0, 0⟩, true, [], [⟨1, 0, 10, 12, true⟩], []⟩ : Scene)).stats.exploded =
        (⟨⟨5, 0, 0⟩, true, [], [⟨1, 0, 10, 12, true⟩], []⟩ : Scene).stats.exploded ∧
      (trySpawnEnvelopes ⟨0, 0, 0, fun _ => 0⟩
          (⟨⟨5, 0, 0⟩, true, [], [⟨1, 0, 10, 12, true⟩], []⟩ : Scene)).stats.coins =
        (⟨⟨5, 0, 0⟩, true, [], [⟨1, 0, 10, 12, true⟩], []⟩ : Scene).stats.coins) :=
  ⟨by decide,
    (tryspawn_alive_amended ⟨0, 0, 0, fun _ => 0⟩
        (⟨⟨5, 0, 0⟩, true, [], [⟨1, 0, 10, 12, true⟩], []⟩ : Scene) (by decide)).2.2.2.2⟩

/-- Folding `createExplosion` over a projectile list bumps `exploded` by
the list length and touches no entity collection. -/
theorem explosionFold_fields (l : List Projectile) (s : Scene) :
    ((l.foldl (fun acc _ => createExplosionScene acc) s).stats.exploded
        = s.stats.exploded + l.length) ∧
    ((l.foldl (fun acc _ => createExplosionScene acc) s).stats.consumed = s.stats.consumed) ∧
    ((l.foldl (fun acc _ => createExplosionScene acc) s).projectiles = s.projectiles) ∧
    ((l.foldl (fun acc _ => createExplosionScene acc) s).envelopes = s.envelopes) ∧
    ((l.foldl (fun acc _ => createExplosionScene acc) s).coins = s.coins) := by
  induction l generalizing s with
  | nil => simp
  | cons hd tl ih =>
      simp only [List.foldl_cons, List.length_cons]
      obtain ⟨h1, h2, h3, h4, h5⟩ := ih (createExplosionScene s)
      refine ⟨?_, ?_, ?_, ?_, ?_⟩
      · rw [h1]
        simp only [createExplosionScene, createExplosionStats]
        push_cast
        omega
      · rw [h2]; rfl
      · rw [h3]; rfl
      · rw [h4]; rfl
      · rw [h5]; rfl

/-- Folding `spawnCoins` over an envelope list touches neither the
projectile nor the envelope collection nor the exploded/consumed
counters. -/
theorem coinFold_fields (r : ℕ → ℚ) (crs : ℕ → ℕ → CoinRand)
    (l : List (ℕ × Envelope)) (s : Scene) :
    ((l.foldl (fun acc ie =>
        spawnCoins (r ie.1) (crs ie.1) (ie.2.x, ie.2.y, ie.2.z) ie.2.isGolden acc) s).projectiles
      = s.projectiles) ∧
    ((l.foldl (fun acc ie =>
        spawnCoins (r ie.1) (crs ie.1) (ie.2.x, ie.2.y, ie.2.z) ie.2.isGolden acc) s).envelopes
      = s.envelopes) ∧
    ((l.foldl (fun acc ie =>
        spawnCoins (r ie.1) (crs ie.1) (ie.2.x, ie.2.y, ie.2.z) ie.2.isGolden acc) s).stats.exploded
      = s.stats.exploded) ∧
    ((l.foldl (fun acc ie =>
        spawnCoins (r ie.1) (crs ie.1) (ie.2.x, ie.2.y, ie.2.z) ie.2.isGolden acc) s).stats.consumed
      = s.stats.consumed) := by
  induction l generalizing s with
  | nil => exact ⟨rfl, rfl, rfl, rfl⟩
  | cons hd tl ih =>
      simp only [List.foldl_cons]
      obtain ⟨h1, h2, h3, h4⟩ := ih
        (spawnCoins (r hd.1) (crs hd.1) (hd.2.x, hd.2.y, hd.2.z) hd.2.isGolden s)
      exact ⟨h1, h2, h3, h4⟩

/-- `explodeVisibleProjectiles`: the surviving projectiles are exactly the
invisible ones, envelopes are untouched, and `exploded` grows by the number
of visible projectiles. -/
theorem explodeVisibleProjectiles_fields (project : ℚ × ℚ × ℚ → ℚ × ℚ × ℚ) (s : Scene) :
    ((explodeVisibleProjectiles project s).projectiles
      = s.projectiles.filter (fun p => !(isVisibleNDC (project (p.x, p.y, p.z))))) ∧
    ((explodeVisibleProjectiles project s).envelopes = s.envelopes) ∧
    ((explodeVisibleProjectiles project s).stats.exploded
      = s.stats.exploded
        + (s.projectiles.filter (fun p => isVisibleNDC (project (p.x, p.y, p.z)))).length) := by
  obtain ⟨h1, h2, h3, h4, h5⟩ := explosionFold_fields
    (s.projectiles.filter (fun p => isVisibleNDC (project (p.x, p.y, p.z)))) s
  exact ⟨rfl, h4, h1⟩

/-- `explodeEnvelopes`: afterwards no envelope is alive, projectiles are
untouched and the exploded counter is unchanged. -/
theorem explodeEnvelopes_fields (r : ℕ → ℚ) (crs : ℕ → ℕ → CoinRand) (s : Scene) :
    ((explodeEnvelopes r crs s).envelopes = []) ∧
    ((explodeEnvelopes r crs s).projectiles = s.projectiles) ∧
    ((explodeEnvelopes r crs s).stats.exploded = s.stats.exploded) := by
  unfold explodeEnvelopes
  split
  · next hemp =>
      exact ⟨List.isEmpty_iff.mp hemp, rfl, rfl⟩
  · next hemp =>
      obtain ⟨h1, h2, h3, h4⟩ := coinFold_fields r crs s.envelopes.enum s
      exact ⟨rfl, h1, h3⟩

/-- C9: on an active tick whose debounced gesture edges from Victory to
Open_Palm, both discrete actions dispatch in that same tick, in source
order: the trigger step equals converting envelopes after detonating the
visible projectiles, so afterwards exactly the invisible projectiles
survive, the exploded counter grew by the number of visible ones, and the
envelope list is empty. -/
theorem victory_to_palm_dual_dispatch (project : ℚ × ℚ × ℚ → ℚ × ℚ × ℚ)
    (er : EnvRands) (r : ℕ → ℚ) (crs : ℕ → ℕ → CoinRand)
    (stable curr : Gesture) (s : Scene)
    (hs : stable = Gesture.Victory) (hc : curr = Gesture.Open_Palm) :
    triggerStep true project er r crs stable curr s =
      (explodeEnvelopes r crs (explodeVisibleProjectiles project s), Gesture.Open_Palm) ∧
    (triggerStep true project er r crs stable curr s).1.envelopes = [] ∧
    (triggerStep true project er r crs stable curr s).1.projectiles =
      s.projectiles.filter (fun p => !(isVisibleNDC (project (p.x, p.y, p.z)))) ∧
    (triggerStep true project er r crs stable curr s).1.stats.exploded =
      s.stats.exploded
        + (s.projectiles.filter (fun p => isVisibleNDC (project (p.x, p.y, p.z)))).length := by
  subst hs hc
  have hstep : triggerStep true project er r crs Gesture.Victory Gesture.Open_Palm s =
      (explodeEnvelopes r crs (explodeVisibleProjectiles project s), Gesture.Open_Palm) := by
    simp [triggerStep]
  obtain ⟨hv1, hv2, hv3⟩ := explodeVisibleProjectiles_fields project s
  obtain ⟨he1, he2, he3⟩ := explodeEnvelopes_fields r crs (explodeVisibleProjectiles project s)
  refine ⟨hstep, ?_, ?_, ?_⟩
  · rw [hstep]; exact he1
  · rw [hstep]; rw [he2, hv1]
  · rw [hstep]; rw [he3, hv3]

/-- C9 witness: concrete instantiation with the identity projection and an
empty scene. -/
theorem victory_to_palm_dual_dispatch_wit :
    Gesture.Victory = Gesture.Victory ∧
    Gesture.Open_Palm = Gesture.Open_Palm ∧
    ((triggerStep true (fun v => v) ⟨0, 0, 0, fun _ => 0⟩ (fun _ => 0)
        (fun _ _ => ⟨0, 0, 0, 0, 0, 0, 0, 0, 0, 0⟩) Gesture.Victory Gesture.Open_Palm
        (⟨⟨0, 0, 0⟩, false, [], [], []⟩ : Scene)).1.envelopes = []) :=
  ⟨rfl, rfl,
    (victory_to_palm_dual_dispatch (fun v => v) ⟨0, 0, 0, fun _ => 0⟩ (fun _ => 0)
        (fun _ _ => ⟨0, 0, 0, 0, 0, 0, 0, 0, 0, 0⟩) Gesture.Victory Gesture.Open_Palm
        (⟨⟨0, 0, 0⟩, false, [], [], []⟩ : Scene) rfl rfl).2.1⟩

/-- C1: from any stabilizer state whose pending gesture differs from `raw`,
feeding `raw` on that differing tick and then holding it for six further
consecutive ticks leaves `stable` unchanged for the differing tick and the
first five held ticks, and transitions `stable` to `raw` on the sixth held
tick; and an alternating raw signal (two distinct values, switching every
tick, starting with a value different from the current pending gesture)
never changes `stable`. -/
theorem debounce_six_hold_transition (g : GestureState) (raw a b : Gesture)
    (hraw : raw ≠ g.pending) (hab : a ≠ b) (ha : a ≠ g.pending) :
    ((∀ k, k ≤ 6 → ((debounceStep raw)^[k] g).stable = g.stable) ∧
      ((debounceStep raw)^[7] g).stable = raw) ∧
    (∀ n, (altFeed a b n g).stable = g.stable) := by
  have hstep : ∀ st : GestureState, st.pending = raw →
      debounceStep raw st = ⟨raw, st.count + 1, if st.count + 1 > 5 then raw else st.stable⟩ := by
    intro st hp
    simp [debounceStep, hp]
  have hfirst : debounceStep raw g = ⟨raw, 0, g.stable⟩ := by
    simp [debounceStep, hraw]
  have hiter : ∀ k, k ≤ 5 → (debounceStep raw)^[k + 1] g = ⟨raw, k, g.stable⟩ := by
    intro k
    induction k with
    | zero => intro _; simpa [Function.iterate_one] using hfirst
    | succ j ih =>
        intro hj
        have hj' : j ≤ 5 := by omega
        have : (debounceStep raw)^[j + 2] g = debounceStep raw ((debounceStep raw)^[j + 1] g) := by
          rw [Function.iterate_succ_apply']
        rw [this, ih hj', hstep ⟨raw, j, g.stable⟩ rfl]
        have : ¬ (j + 1 > 5) := by omega
        simp [this]
  refine ⟨⟨?_, ?_⟩, ?_⟩
  · intro k hk
    match k, hk with
    | 0, _ => rfl
    | (j + 1), hk =>
        have hj : j ≤ 5 := by omega
        rw [hiter j hj]
  · have h6 : (debounceStep raw)^[6] g = ⟨raw, 5, g.stable⟩ := hiter 5 (by omega)
    have : (debounceStep raw)^[7] g = debounceStep raw ((debounceStep raw)^[6] g) := by
      rw [Function.iterate_succ_apply']
    rw [this, h6, hstep ⟨raw, 5, g.stable⟩ rfl]
    simp
  · intro n
    -- invariant: feeding a value different from pending resets the count and
    -- keeps stable, so an always-switching signal never reaches the threshold
    have key : ∀ n a b (st : GestureState), a ≠ b → a ≠ st.pending →
        (altFeed a b n st).stable = st.stable := by
      intro n
      induction n with
      | zero => intro a b st _ _; rfl
      | succ m ih =>
          intro a b st hab' ha'
          have hstep1 : debounceStep a st = ⟨a, 0, st.stable⟩ := by
            simp [debounceStep, ha']
          show (altFeed b a m (debounceStep a st)).stable = st.stable
          rw [hstep1]
          exact ih b a ⟨a, 0, st.stable⟩ (Ne.symm hab') (fun hc => hab' hc.symm)
    exact key n a b g hab ha

/-- C1 witness: concrete instantiation at the all-None initial stabilizer
state with raw = Victory held after a switch, and an Open_Palm / Victory
alternating signal. -/
theorem debounce_six_hold_transition_wit :
    (Gesture.Victory ≠ (⟨Gesture.None, 0, Gesture.None⟩ : GestureState).pending ∧
      Gesture.Open_Palm ≠ Gesture.Victory ∧
      Gesture.Open_Palm ≠ (⟨Gesture.None, 0, Gesture.None⟩ : GestureState).pending) ∧
    (((∀ k, k ≤ 6 →
        ((debounceStep Gesture.Victory)^[k] (⟨Gesture.None, 0, Gesture.None⟩ : GestureState)).stable =
          (⟨Gesture.None, 0, Gesture.None⟩ : GestureState).stable) ∧
      ((debounceStep Gesture.Victory)^[7] (⟨Gesture.None, 0, Gesture.None⟩ : GestureState)).stable =
        Gesture.Victory) ∧
    (∀ n, (altFeed Gesture.Open_Palm Gesture.Victory n
        (⟨Gesture.None, 0, Gesture.None⟩ : GestureState)).stable =
      (⟨Gesture.None, 0, Gesture.None⟩ : GestureState).stable)) :=
  ⟨⟨by decide, by decide, by decide⟩,
    debounce_six_hold_transition ⟨Gesture.None, 0, Gesture.None⟩
      Gesture.Victory Gesture.Open_Palm Gesture.Victory
      (by decide) (by decide) (by decide)⟩

/-- C4: every pool's number of active slots is bounded by the fixed
capacity MAX_PARTICLES = 4000, and a `spawnParticle` request issued when
every slot is active leaves the whole pool (slot data and the position,
color and size buffers) unchanged. -/
theorem particle_pool_capacity_saturated_noop (P : ParticlePool) (start : ℕ)
    (pos col vel : ℚ × ℚ × ℚ) (life decay size : ℚ) :
    activeCount P ≤ MAX_PARTICLES ∧
    ((∀ i, (P.data i).active = true) →
      spawnParticle start pos col vel life decay size P = P) := by
  constructor
  · calc activeCount P ≤ Finset.univ.card := Finset.card_filter_le _ _
      _ = MAX_PARTICLES := by rw [Finset.card_univ, Fintype.card_fin]
  · intro hfull
    have hnone : findInactive P.data start = none := by
      unfold findInactive
      rw [List.find?_eq_none]
      intro idx hidx
      simp [hfull idx]
    unfold spawnParticle
    rw [hnone]

/-- C4 witness: a fully active pool with zeroed numeric fields drops the
spawn request unchanged. -/
theorem particle_pool_capacity_saturated_noop_wit :
    (∀ i, (((⟨fun _ => ⟨true, 0, 0, 0, 0, 0, 0⟩, fun _ => 0, fun _ => 0, fun _ => 0,
        fun _ => 0, fun _ => 0, fun _ => 0, fun _ => 0⟩ : ParticlePool)).data i).active = true) ∧
    spawnParticle 0 (0, 0, 0) (0, 0, 0) (0, 0, 0) 0 0 0
        (⟨fun _ => ⟨true, 0, 0, 0, 0, 0, 0⟩, fun _ => 0, fun _ => 0, fun _ => 0,
          fun _ => 0, fun _ => 0, fun _ => 0, fun _ => 0⟩ : ParticlePool) =
      (⟨fun _ => ⟨true, 0, 0, 0, 0, 0, 0⟩, fun _ => 0, fun _ => 0, fun _ => 0,
        fun _ => 0, fun _ => 0, fun _ => 0, fun _ => 0⟩ : ParticlePool) :=
  ⟨fun _ => rfl,
    (particle_pool_capacity_saturated_noop
        (⟨fun _ => ⟨true, 0, 0, 0, 0, 0, 0⟩, fun _ => 0, fun _ => 0, fun _ => 0,
          fun _ => 0, fun _ => 0, fun _ => 0, fun _ => 0⟩ : ParticlePool)
        0 (0, 0, 0) (0, 0, 0) (0, 0, 0) 0 0 0).2 (fun _ => rfl)⟩

/-- C5 counterexample: on a tick where the debounced stable gesture is
Closed_Fist while the raw hand snapshot reports gesture None with scalar
speed 4, and the base draw is 0 (base delay 666 ms), the claim predicts
the half-interpolated delay 333 but the code's scheduler keeps the base
delay 666 — the gate reads the raw snapshot gesture, not the stable
gesture. -/
theorem spawn_delay_stable_gate_cex :
    spawnDelayClaimed Gesture.Closed_Fist 4 0 = 333 ∧
    spawnDelay (some ⟨Gesture.None, 4, 0, 0, 0⟩) 0 = 666 ∧
    (333 : ℚ) ≠ 666 := by
  refine ⟨?_, ?_, by norm_num⟩
  · norm_num [spawnDelayClaimed, baseDelay, min_def, max_def]
  · norm_num [spawnDelay, baseDelay]
    decide

/-- C5 amended: the scheduler's next delay is a base value drawn uniformly
from [666, 2000) ms; the speed modifier is gated on the raw hand-snapshot
gesture (a present hand whose gesture is Closed_Fist), not on the
debounced stable gesture: then the delay is the base linearly
interpolated down to half of itself, base * (1 - 0.5 * t) with
t = clamp(velocity / 4, 0, 1); with no hand, or any other raw gesture,
the base delay is used unmodified. -/
theorem spawn_delay_raw_gate (hand : Option HandData) (r : ℚ)
    (hr0 : 0 ≤ r) (hr1 : r < 1) :
    (666 ≤ baseDelay r ∧ baseDelay r < 2000) ∧
    (∀ h, hand = some h → h.gesture = Gesture.Closed_Fist →
      spawnDelay hand r = baseDelay r * (1 - 0.5 * min (max (h.velocity / 4) 0) 1)) ∧
    (hand = none → spawnDelay hand r = baseDelay r) ∧
    (∀ h, hand = some h → h.gesture ≠ Gesture.Closed_Fist →
      spawnDelay hand r = baseDelay r) := by
  refine ⟨⟨?_, ?_⟩, ?_, ?_, ?_⟩
  · unfold baseDelay; nlinarith
  · unfold baseDelay; nlinarith
  · intro h hh hg
    subst hh
    have hmax : max (h.velocity / 4) 0 = max h.velocity 0 / 4 := by
      calc max (h.velocity / 4) 0 = max (h.velocity / 4) (0 / 4) := by rw [zero_div]
        _ = max h.velocity 0 / 4 := max_div_div_right (by norm_num) _ _
    simp [spawnDelay, hg, hmax]
  · intro hh
    subst hh
    rfl
  · intro h hh hg
    subst hh
    simp [spawnDelay, hg]

/-- C5 amended witness: a present Closed_Fist hand with velocity 2 and
base draw one half. -/
theorem spawn_delay_raw_gate_wit :
    ((0 : ℚ) ≤ 1 / 2 ∧ (1 : ℚ) / 2 < 1) ∧
    ((666 ≤ baseDelay (1 / 2) ∧ baseDelay (1 / 2) < 2000) ∧
      (∀ h, (some (⟨Gesture.Closed_Fist, 2, 0, 0, 0⟩ : HandData)) = some h →
        h.gesture = Gesture.Closed_Fist →
        spawnDelay (some ⟨Gesture.Closed_Fist, 2, 0, 0, 0⟩) (1 / 2) =
          baseDelay (1 / 2) * (1 - 0.5 * min (max (h.velocity / 4) 0) 1)) ∧
      ((some (⟨Gesture.Closed_Fist, 2, 0, 0, 0⟩ : HandData)) = none →
        spawnDelay (some ⟨Gesture.Closed_Fist, 2, 0, 0, 0⟩) (1 / 2) = baseDelay (1 / 2)) ∧
      (∀ h, (some (⟨Gesture.Closed_Fist, 2, 0, 0, 0⟩ : HandData)) = some h →
        h.gesture ≠ Gesture.Closed_Fist →
        spawnDelay (some ⟨Gesture.Closed_Fist, 2, 0, 0, 0⟩) (1 / 2) = baseDelay (1 / 2))) :=
  ⟨⟨by norm_num, by norm_num⟩,
    spawn_delay_raw_gate (some ⟨Gesture.Closed_Fist, 2, 0, 0, 0⟩) (1 / 2)
      (by norm_num) (by norm_num)⟩

/-- C6: a single detonation increments the exploded counter by exactly one
and requests exactly 60 burst particles; given its random draws lie in
[0,1), each particle's speed scalar lies in [0.2, 0.5] and agrees with the
euclidean norm of its velocity, and the cosine of the polar angle
phi = acos(2v - 1) equals 2v - 1, the affine image of the uniform draw v
in [-1, 1] — an unbiased solid-angle sample. -/
theorem explosion_burst_uniform_sphere (st : GameStats) (pos : ℝ × ℝ × ℝ) (h s : ℝ)
    (rands : Fin explosionParticleCount → BurstRand)
    (hr : ∀ i, 0 ≤ (rands i).v ∧ (rands i).v < 1 ∧ 0 ≤ (rands i).sp ∧ (rands i).sp < 1) :
    (createExplosionStats st).exploded = st.exploded + 1 ∧
    (createExplosionBurst pos h s rands).length = 60 ∧
    ∀ i, ((0.2 : ℝ) ≤ burstSpeed (rands i).sp ∧ burstSpeed (rands i).sp ≤ 0.5) ∧
      Real.cos (burstPhi (rands i).v) = 2 * (rands i).v - 1 ∧
      ((-1 : ℝ) ≤ 2 * (rands i).v - 1 ∧ 2 * (rands i).v - 1 ≤ 1) ∧
      (burstRequest pos h s (rands i)).velX ^ 2 + (burstRequest pos h s (rands i)).velY ^ 2
          + (burstRequest pos h s (rands i)).velZ ^ 2 = burstSpeed (rands i).sp ^ 2 := by
  refine ⟨rfl, ?_, ?_⟩
  · simp [createExplosionBurst, explosionParticleCount]
  · intro i
    obtain ⟨hv0, hv1, hs0, hs1⟩ := hr i
    refine ⟨⟨?_, ?_⟩, ?_, ⟨by linarith, by linarith⟩, ?_⟩
    · unfold burstSpeed; nlinarith
    · unfold burstSpeed; nlinarith
    · unfold burstPhi
      exact Real.cos_arccos (by linarith) (by linarith)
    · have hθ := Real.cos_sq_add_sin_sq (burstTheta (rands i).u)
      have hφ := Real.sin_sq_add_cos_sq (burstPhi (rands i).v)
      simp only [burstRequest]
      linear_combination
        (burstSpeed (rands i).sp ^ 2 * Real.sin (burstPhi (rands i).v) ^ 2) * hθ +
          burstSpeed (rands i).sp ^ 2 * hφ

/-- C6 witness: all draws zero (speed 0.2, polar cosine -1). -/
theorem explosion_burst_uniform_sphere_wit :
    (∀ i : Fin explosionParticleCount,
      (0 : ℝ) ≤ ((fun _ => (⟨0, 0, 0, 0, 0, 0, 0⟩ : BurstRand)) i).v ∧
      ((fun _ => (⟨0, 0, 0, 0, 0, 0, 0⟩ : BurstRand)) i).v < 1 ∧
      (0 : ℝ) ≤ ((fun _ => (⟨0, 0, 0, 0, 0, 0, 0⟩ : BurstRand)) i).sp ∧
      ((fun _ => (⟨0, 0, 0, 0, 0, 0, 0⟩ : BurstRand)) i).sp < 1) ∧
    ((createExplosionStats ⟨0, 0, 0⟩).exploded = (0 : ℤ) + 1 ∧
      (createExplosionBurst (0, 0, 0) 0 0 (fun _ => ⟨0, 0, 0, 0, 0, 0, 0⟩)).length = 60 ∧
      ∀ i : Fin explosionParticleCount,
        ((0.2 : ℝ) ≤ burstSpeed ((fun _ => (⟨0, 0, 0, 0, 0, 0, 0⟩ : BurstRand)) i).sp ∧
          burstSpeed ((fun _ => (⟨0, 0, 0, 0, 0, 0, 0⟩ : BurstRand)) i).sp ≤ 0.5) ∧
        Real.cos (burstPhi ((fun _ => (⟨0, 0, 0, 0, 0, 0, 0⟩ : BurstRand)) i).v) =
          2 * ((fun _ => (⟨0, 0, 0, 0, 0, 0, 0⟩ : BurstRand)) i).v - 1 ∧
        ((-1 : ℝ) ≤ 2 * ((fun _ => (⟨0, 0, 0, 0, 0, 0, 0⟩ : BurstRand)) i).v - 1 ∧
          2 * ((fun _ => (⟨0, 0, 0, 0, 0, 0, 0⟩ : BurstRand)) i).v - 1 ≤ 1) ∧
        (burstRequest (0, 0, 0) 0 0 ((fun _ => (⟨0, 0, 0, 0, 0, 0, 0⟩ : BurstRand)) i)).velX ^ 2 +
            (burstRequest (0, 0, 0) 0 0 ((fun _ => (⟨0, 0, 0, 0, 0, 0, 0⟩ : BurstRand)) i)).velY ^ 2 +
            (burstRequest (0, 0, 0) 0 0 ((fun _ => (⟨0, 0, 0, 0, 0, 0, 0⟩ : BurstRand)) i)).velZ ^ 2 =
          burstSpeed ((fun _ => (⟨0, 0, 0, 0, 0, 0, 0⟩ : BurstRand)) i).sp ^ 2) :=
  ⟨fun _ => ⟨le_refl 0, by norm_num, le_refl 0, by norm_num⟩,
    explosion_burst_uniform_sphere ⟨0, 0, 0⟩ (0, 0, 0) 0 0 (fun _ => ⟨0, 0, 0, 0, 0, 0, 0⟩)
      (fun _ => ⟨le_refl 0, by norm_num, le_refl 0, by norm_num⟩)⟩

/-- C7: one envelope conversion's `spawnCoins` draws a base count
floor(rand*8)+3 in [3, 10], doubles it when the source envelope is golden,
appends exactly that many coins to the coin collection, and increases the
coins stat by exactly N * value, where N is the batch size and value is 1
for a silver envelope and 2 for a golden one. -/
theorem spawn_coins_value (r : ℚ) (crs : ℕ → CoinRand) (pos : ℚ × ℚ × ℚ)
    (isGolden : Bool) (s : Scene) (hr0 : 0 ≤ r) (hr1 : r < 1) :
    (3 ≤ ⌊r * 8⌋ + 3 ∧ ⌊r * 8⌋ + 3 ≤ 10) ∧
    coinCount r isGolden = (if isGolden then 2 * (⌊r * 8⌋ + 3) else ⌊r * 8⌋ + 3) ∧
    coinValue isGolden = (if isGolden then 2 else 1) ∧
    (spawnCoins r crs pos isGolden s).stats.coins
      = s.stats.coins + coinCount r isGolden * coinValue isGolden ∧
    (spawnCoins r crs pos isGolden s).coins.length
      = s.coins.length + (coinCount r isGolden).toNat := by
  have hfl0 : 0 ≤ ⌊r * 8⌋ := Int.floor_nonneg.mpr (by positivity)
  have hfl7 : ⌊r * 8⌋ < 8 := Int.floor_lt.mpr (by push_cast; nlinarith)
  refine ⟨⟨by omega, by omega⟩, ?_, rfl, rfl, ?_⟩
  · cases isGolden <;> simp [coinCount, Int.mul_comm]
  · simp [spawnCoins]

/-- C7 witness: golden envelope with batch-count draw one half (base 7,
batch 14, coin stat increase 28). -/
theorem spawn_coins_value_wit :
    ((0 : ℚ) ≤ 1 / 2 ∧ (1 : ℚ) / 2 < 1) ∧
    ((3 ≤ ⌊(1 : ℚ) / 2 * 8⌋ + 3 ∧ ⌊(1 : ℚ) / 2 * 8⌋ + 3 ≤ 10) ∧
      coinCount (1 / 2) true = (if true then 2 * (⌊(1 : ℚ) / 2 * 8⌋ + 3) else ⌊(1 : ℚ) / 2 * 8⌋ + 3) ∧
      coinValue true = (if true then 2 else 1) ∧
      (spawnCoins (1 / 2) (fun _ => ⟨0, 0, 0, 0, 0, 0, 0, 0, 0, 0⟩) (0, 0, 0) true
          (⟨⟨0, 0, 0⟩, false, [], [], []⟩ : Scene)).stats.coins
        = (⟨⟨0, 0, 0⟩, false, [], [], []⟩ : Scene).stats.coins +
            coinCount (1 / 2) true * coinValue true ∧
      (spawnCoins (1 / 2) (fun _ => ⟨0, 0, 0, 0, 0, 0, 0, 0, 0, 0⟩) (0, 0, 0) true
          (⟨⟨0, 0, 0⟩, false, [], [], []⟩ : Scene)).coins.length
        = (⟨⟨0, 0, 0⟩, false, [], [], []⟩ : Scene).coins.length +
            (coinCount (1 / 2) true).toNat) :=
  ⟨⟨by norm_num, by norm_num⟩,
    spawn_coins_value (1 / 2) (fun _ => ⟨0, 0, 0, 0, 0, 0, 0, 0, 0, 0⟩) (0, 0, 0) true
      (⟨⟨0, 0, 0⟩, false, [], [], []⟩ : Scene) (by norm_num) (by norm_num)⟩

/-- C8: while the session is in RESULT with a positive replay cooldown,
the Victory gesture control changes nothing — in particular the session
stays in RESULT; once the cooldown has reached zero, a present Victory
hand in RESULT restarts the session via `startGame` (stats reset,
countdown 30, PLAYING). -/
theorem result_cooldown_blocks_replay (s : AppState) (hand : Option HandData)
    (hres : s.gameState = SessionState.RESULT) :
    (0 < s.restartCooldown → gestureControl hand s = s) ∧
    (s.restartCooldown = 0 → ∀ h, hand = some h → h.gesture = Gesture.Victory →
      gestureControl hand s = startGame s ∧
      (gestureControl hand s).gameState = SessionState.PLAYING) := by
  obtain ⟨gs, tl, rc, st⟩ := s
  simp only at hres
  subst hres
  cases hand with
  | none =>
      exact ⟨fun _ => rfl, fun _ h hh => Option.noConfusion hh⟩
  | some h =>
      constructor
      · intro hc
        replace hc : 0 < rc := hc
        by_cases hg : h.gesture = Gesture.Victory
        · simp [gestureControl, hg, Nat.pos_iff_ne_zero.mp hc]
        · simp only [gestureControl, if_neg hg]
      · intro hc h' hh hg
        injection hh with hh'
        subst hh'
        replace hc : rc = 0 := hc
        subst hc
        simp only [gestureControl, if_pos hg]
        exact ⟨rfl, rfl⟩

/-- C8 witness: a Victory hand in RESULT with cooldown 2 changes nothing;
with cooldown 0 it re-enters PLAYING. -/
theorem result_cooldown_blocks_replay_wit :
    gestureControl (some ⟨Gesture.Victory, 0, 0, 0, 0⟩)
        (⟨SessionState.RESULT, 0, 2, ⟨0, 0, 0⟩⟩ : AppState) =
      (⟨SessionState.RESULT, 0, 2, ⟨0, 0, 0⟩⟩ : AppState) ∧
    (gestureControl (some ⟨Gesture.Victory, 0, 0, 0, 0⟩)
        (⟨SessionState.RESULT, 0, 0, ⟨0, 0, 0⟩⟩ : AppState)).gameState =
      SessionState.PLAYING :=
  ⟨(result_cooldown_blocks_replay (⟨SessionState.RESULT, 0, 2, ⟨0, 0, 0⟩⟩ : AppState)
      (some ⟨Gesture.Victory, 0, 0, 0, 0⟩) rfl).1 (by norm_num),
    ((result_cooldown_blocks_replay (⟨SessionState.RESULT, 0, 0, ⟨0, 0, 0⟩⟩ : AppState)
        (some ⟨Gesture.Victory, 0, 0, 0, 0⟩) rfl).2 rfl _ rfl rfl).2⟩

/-- C10: starting or restarting a session resets only the stats counters
and the 30-second countdown: `startGame` zeroes the stats snapshot, sets
the countdown to 30 and enters PLAYING while leaving the replay cooldown
alone, and the scene's activation sync resets only the local stats ref —
live projectiles, envelopes, coins and the whole particle pool persist
into the new session. -/
theorem session_start_resets_only_stats (app : AppState) (st : CoreState) :
    (startGame app).stats = ⟨0, 0, 0⟩ ∧
    (startGame app).timeLeft = 30 ∧
    (startGame app).gameState = SessionState.PLAYING ∧
    (startGame app).restartCooldown = app.restartCooldown ∧
    (syncGameActive true st).scene.stats = ⟨0, 0, 0⟩ ∧
    (syncGameActive true st).scene.projectiles = st.scene.projectiles ∧
    (syncGameActive true st).scene.envelopes = st.scene.envelopes ∧
    (syncGameActive true st).scene.coins = st.scene.coins ∧
    (syncGameActive true st).pool = st.pool := by
  refine ⟨rfl, rfl, rfl, rfl, ?_, ?_, ?_, ?_, ?_⟩ <;> simp [syncGameActive]
